import Mathlib

/-!
Shallow embedding of the nobuild single-header build system (nobuild.h):
named-item linked lists for compiler flags and build objects, compiler
descriptors, build rules, and the execution engine that serializes a rule
into an argument vector, spawns the compiler and inspects the child's
termination status.

Modelling conventions:
* a linked list of flag_t / object_t nodes is a Lean list of the node name
  strings, head first, in link order;
* a pointer that may be NULL is an Option; the target field of build_rule_t
  is the stored object_t pointer, modelled as an address (Nat) into an
  object store (Nat to name), matching the C code, which stores the
  caller's pointer rather than copying the object;
* malloc / calloc success is an explicit Boolean oracle argument;
* the termination of the spawned child is a SpawnOutcome argument;
* the fixed-size character buffers written by strncpy are modelled
  byte-exactly (strncpy_buf) where a claim depends on the buffer contents,
  and as their C-string reading elsewhere.
-/

set_option maxRecDepth 8000

namespace Nobuild

/-- DEFAULT_CAPACITY from nobuild.h line 55. -/
def DEFAULT_CAPACITY : Nat := 128 - 8

def FLAG_CAPACITY : Nat := DEFAULT_CAPACITY

def OBJECT_CAPACITY : Nat := DEFAULT_CAPACITY

def CC_CAPACITY : Nat := DEFAULT_CAPACITY

def OUT_CAPACITY : Nat := DEFAULT_CAPACITY

/-- compiler_t: the cmd buffer read as a C string, and the linked list of
flag_t nodes given by their names in link order. -/
structure compiler_t where
  cmd : String
  flags : List String
deriving DecidableEq

/-- build_rule_t: target is the stored object_t pointer (an address into the
object store, NULL = none), dependencies is the owned object list (names in
link order), cc the compiler pointer, output the output buffer read as a
C string. -/
structure build_rule_t where
  target : Option Nat
  dependencies : List String
  cc : Option compiler_t
  output : String
deriving DecidableEq

/-- DEFINE_ALLOC_FN(TYPE, CAPACITY) (lines 224-241): heap-allocates a node
and copies the name into it. Returns NULL (none) when malloc fails or when
the name length exceeds CAPACITY - 1; otherwise the new node holds exactly
the copied name (memcpy of len bytes plus a written terminator). -/
def node_alloc (capacity : Nat) (allocOk : Bool) (copy : String) : Option String :=
  if !allocOk then none
  else if copy.length > capacity - 1 then none
  else some copy

/-- The flag_t instantiation of DEFINE_ALLOC_FN (line 243). -/
def flag_t_alloc (allocOk : Bool) (copy : String) : Option String :=
  node_alloc FLAG_CAPACITY allocOk copy

/-- The object_t instantiation of DEFINE_ALLOC_FN (line 244). -/
def object_t_alloc (allocOk : Bool) (copy : String) : Option String :=
  node_alloc OBJECT_CAPACITY allocOk copy

/-- LIST_PUSH_BACK (lines 247-259): walks to the tail; on an empty list the
head pointer receives the allocation result, otherwise the tail node's next
pointer does. A NULL allocation result therefore leaves the list unchanged
(the assigned pointer was already NULL). -/
def LIST_PUSH_BACK (head : List String) (allocated : Option String) : List String :=
  match head with
  | [] => allocated.toList
  | x :: rest => x :: LIST_PUSH_BACK rest allocated

/-- ADD_FLAG (lines 262-265): pushes a freshly allocated copy of the flag at
the tail of the flag list. -/
def ADD_FLAG (allocOk : Bool) (flags : List String) (flag : String) : List String :=
  LIST_PUSH_BACK flags (flag_t_alloc allocOk flag)

/-- ADD_OBJECT (lines 267-270): pushes a freshly allocated copy of the object
at the tail of the object list. -/
def ADD_OBJECT (allocOk : Bool) (objects : List String) (object : String) : List String :=
  LIST_PUSH_BACK objects (object_t_alloc allocOk object)

/-- ADD_FLAG as the full C call: the first component is the list the caller's
head pointer designates after the call, the second the C return value, which
is void (Unit) however the call went. -/
def ADD_FLAG_call (allocOk : Bool) (flags : List String) (flag : String) :
    List String × Unit :=
  (ADD_FLAG allocOk flags flag, ())

/-- ADD_OBJECT as the full C call: post-state list plus the void return. -/
def ADD_OBJECT_call (allocOk : Bool) (objects : List String) (object : String) :
    List String × Unit :=
  (ADD_OBJECT allocOk objects object, ())

/-- SET_CC / SET_OUT at the C-string level: the field keeps the first
CC_CAPACITY characters of the source. The byte-exact strncpy behaviour of
these macros, including the missing terminator once the source reaches the
capacity, is modelled by strncpy_buf below, which is the authority wherever
a claim depends on the buffer contents. -/
def set_str_field (src : String) : String :=
  String.mk (src.toList.take CC_CAPACITY)

/-- INIT_RULE (lines 139-144): heap rule with NULL target, NULL dependency
list, NULL compiler; the output buffer's first byte is zeroed, so it reads
as the empty C string. -/
def INIT_RULE : build_rule_t :=
  { target := none, dependencies := [], cc := none, output := "" }

/-- INIT_CC (lines 131-134): NULL flag list; the cmd buffer's first byte is
zeroed, so it reads as the empty C string. -/
def INIT_CC : compiler_t := { cmd := "", flags := [] }

/-- MAKE_RULE (lines 272-285), as the post-state of the two objects the
pointers designate. With a NULL rule, NULL compiler or NULL dependency list
the function returns immediately; otherwise it stores the compiler pointer
in the rule, overwrites that compiler's flags with the given flag list,
copies the output string (SET_OUT), stores the target pointer, and attaches
the dependency list. -/
def MAKE_RULE (rule : Option build_rule_t) (compiler : Option compiler_t)
    (flags : List String) (target : Option Nat) (dependencies : List String)
    (output : String) : Option build_rule_t × Option compiler_t :=
  match rule, compiler with
  | some r, some c =>
    if dependencies = [] then (some r, some c)
    else
      let c2 : compiler_t := { c with flags := flags }
      let r2 : build_rule_t :=
        { target := target
          dependencies := dependencies
          cc := some c2
          output := set_str_field output }
      (some r2, some c2)
  | _, _ => (rule, compiler)

/-- cleanup (lines 287-312): a NULL rule returns immediately; otherwise the
dependency nodes are freed, and then rule->cc->flags is read WITHOUT first
checking rule->cc for NULL (the NULL check at line 307 happens only after
that read). A NULL cc at that read is a null-pointer dereference, modelled
as none; with a non-NULL cc the flag nodes, the compiler and the rule are
freed and the walk terminates normally. -/
def cleanup (rule : Option build_rule_t) : Option Unit :=
  match rule with
  | none => some ()
  | some r =>
    match r.cc with
    | none => none
    | some _ => some ()

/-- Termination of the spawn step of __build: fork failed (no child was
created), or the child exited normally with a code, or the child was
terminated by a signal. -/
inductive SpawnOutcome where
  | forkFail : SpawnOutcome
  | exited : Nat → SpawnOutcome
  | signaled : Nat → SpawnOutcome
deriving DecidableEq

/-- Observable result of BUILD / __build: the short return value, plus
whether a child process was created. -/
structure BuildResult where
  ret : Int
  spawned : Bool
deriving DecidableEq

/-- The validation condition shared by BUILD (line 316) and __build
(line 354): !rule || !rule->cc || !rule->target || !rule->dependencies. -/
def rule_malformed (rule : Option build_rule_t) : Bool :=
  match rule with
  | none => true
  | some r => r.cc.isNone || r.target.isNone || r.dependencies.isEmpty

/-- One fill loop of __build (lines 382-384 and 393-395): writes each item of
a node list at consecutive argv slots, returning the updated vector and the
next free index. -/
def fill_list (argv : List (Option String)) (i : Nat) (items : List String) :
    List (Option String) × Nat :=
  match items with
  | [] => (argv, i)
  | x :: rest => fill_list (argv.set i (some x)) (i + 1) rest

/-- The serialization step of __build (lines 358-397): one argv slot per flag
and per dependency plus five fixed slots (compiler, "-o", output, target,
terminator); calloc leaves every slot NULL (none); then sequential writes of
the compiler command, the flags, "-o", the output, the target name, the
dependencies, and the explicit NULL terminator. -/
def build_argv (cmd : String) (flags : List String) (output : String)
    (targetName : String) (deps : List String) : List (Option String) :=
  let argc := flags.length + deps.length + 5
  let a0 : List (Option String) := List.replicate argc none
  let a1 := a0.set 0 (some cmd)
  let p1 := fill_list a1 1 flags
  let a2 := p1.1.set p1.2 (some "-o")
  let a3 := a2.set (p1.2 + 1) (some output)
  let a4 := a3.set (p1.2 + 2) (some targetName)
  let p2 := fill_list a4 (p1.2 + 3) deps
  p2.1.set p2.2 none

/-- The argument vector __build serializes for a given rule: defined through
the rule's fields, resolving the target pointer through the object store.
For a rule that fails validation no vector is built. -/
def rule_argv (store : Nat → String) (r : build_rule_t) : List (Option String) :=
  match r.cc, r.target with
  | some cc, some t => build_argv cc.cmd cc.flags r.output (store t) r.dependencies
  | _, _ => []

/-- __build (lines 352-425): validation, serialization (rule_argv, whose
storage is freed before returning and does not influence the return value),
calloc oracle, fork, child exec / parent waitpid, and the exit-status
inspection WIFEXITED(status) && WEXITSTATUS(status) == 0. -/
def build_child (_store : Nat → String) (rule : Option build_rule_t)
    (allocOk : Bool) (outcome : SpawnOutcome) : BuildResult :=
  if rule_malformed rule then { ret := -1, spawned := false }
  else if allocOk = false then { ret := -1, spawned := false }
  else
    match outcome with
    | SpawnOutcome.forkFail => { ret := -1, spawned := false }
    | SpawnOutcome.exited code =>
        if code = 0 then { ret := 0, spawned := true }
        else { ret := -1, spawned := true }
    | SpawnOutcome.signaled _ => { ret := -1, spawned := true }

/-- BUILD (lines 314-350): repeats the validation check and delegates to
__build (the DEBUG block only prints and is compiled out by default). -/
def BUILD (store : Nat → String) (rule : Option build_rule_t)
    (allocOk : Bool) (outcome : SpawnOutcome) : BuildResult :=
  if rule_malformed rule then { ret := -1, spawned := false }
  else build_child store rule allocOk outcome

/-- The NUL byte terminating C strings. -/
def NUL : Char := Char.ofNat 0

/-- strncpy(dst, src, n) into a destination buffer of exactly n bytes: the
first min(len, n) bytes come from src; only when len < n is the remainder
NUL-padded. For len at or beyond n no terminator is written. -/
def strncpy_buf (src : List Char) (n : Nat) : List Char :=
  if src.length < n then src ++ List.replicate (n - src.length) NUL
  else src.take n

/-- SET_CC (lines 158-159): strncpy of the command into the CC_CAPACITY-byte
cmd buffer. -/
def SET_CC_buf (src : List Char) : List Char :=
  strncpy_buf src CC_CAPACITY

/-- Reading a fixed-size buffer as a C string: the characters before the
first NUL; none when the buffer holds no NUL at all (the read would run off
the end of the buffer). -/
def read_c_str (buf : List Char) : Option (List Char) :=
  if NUL ∈ buf then some (buf.takeWhile (fun c => c ≠ NUL)) else none

/-- Reading a rule's target name through the object store: the stored pointer
dereferenced, as __build does at line 390. -/
def target_name (store : Nat → String) (r : build_rule_t) : Option String :=
  r.target.map store

end Nobuild

namespace Nobuild

theorem LIST_PUSH_BACK_none (l : List String) : LIST_PUSH_BACK l none = l := by
  induction l with
  | nil => rfl
  | cons x rest ih => simp [LIST_PUSH_BACK, ih]

theorem LIST_PUSH_BACK_some (l : List String) (x : String) :
    LIST_PUSH_BACK l (some x) = l ++ [x] := by
  induction l with
  | nil => rfl
  | cons y rest ih => simp [LIST_PUSH_BACK, ih]

theorem node_alloc_rejected (capacity : Nat) (allocOk : Bool) (copy : String)
    (hcap : 1 ≤ capacity) (h : capacity ≤ copy.length ∨ allocOk = false) :
    node_alloc capacity allocOk copy = none := by
  rcases h with h | h
  · cases allocOk
    · simp [node_alloc]
    · have hlen : copy.length > capacity - 1 := by omega
      simp [node_alloc, hlen]
  · subst h
    simp [node_alloc]

theorem node_alloc_accepted (capacity : Nat) (copy : String)
    (h : copy.length < capacity) :
    node_alloc capacity true copy = some copy := by
  have hlen : ¬ copy.length > capacity - 1 := by omega
  simp [node_alloc, hlen]

theorem ADD_FLAG_success (l : List String) (n : String)
    (h : n.length < FLAG_CAPACITY) : ADD_FLAG true l n = l ++ [n] := by
  have hcap : FLAG_CAPACITY = 120 := rfl
  rw [ADD_FLAG, flag_t_alloc, node_alloc_accepted FLAG_CAPACITY n h,
    LIST_PUSH_BACK_some]

theorem ADD_OBJECT_eq_ADD_FLAG : ADD_OBJECT = ADD_FLAG := rfl

theorem set_at_length {α : Type} (pre : List α) (a b : α) (suf : List α) :
    (pre ++ a :: suf).set pre.length b = pre ++ b :: suf := by
  induction pre with
  | nil => rfl
  | cons x xs ih =>
    show ((x :: xs) ++ a :: suf).set (xs.length + 1) b = (x :: xs) ++ b :: suf
    simp only [List.cons_append, List.set_cons_succ, ih]

theorem fill_list_append (items : List String) :
    ∀ (pre : List (Option String)) (j : Nat),
    fill_list (pre ++ List.replicate (items.length + j) none) pre.length items
      = (pre ++ items.map some ++ List.replicate j none,
         pre.length + items.length) := by
  induction items with
  | nil =>
    intro pre j
    simp [fill_list]
  | cons x rest ih =>
    intro pre j
    have e1 : (x :: rest).length + j = (rest.length + j) + 1 := by
      simp [List.length_cons]; omega
    rw [e1, List.replicate_succ]
    show fill_list
        ((pre ++ none :: List.replicate (rest.length + j) none).set pre.length (some x))
        (pre.length + 1) rest = _
    rw [set_at_length]
    have e2 : pre ++ some x :: List.replicate (rest.length + j) none
        = (pre ++ [some x]) ++ List.replicate (rest.length + j) none := by
      simp
    have e3 : pre.length + 1 = (pre ++ [some x]).length := by
      simp
    rw [e2, e3, ih (pre ++ [some x]) j]
    have e4 : (pre ++ [some x]) ++ rest.map some = pre ++ (x :: rest).map some := by
      simp
    have e5 : (pre ++ [some x]).length + rest.length
        = pre.length + (x :: rest).length := by
      simp [List.length_append, List.length_cons]; omega
    rw [e4, e5]

theorem build_argv_shape (cmd output targetName : String) (flags deps : List String) :
    build_argv cmd flags output targetName deps
      = some cmd :: (flags.map some
          ++ some "-o" :: some output :: some targetName :: (deps.map some ++ [none])) := by
  have ha1 : (List.replicate (flags.length + deps.length + 5) (none : Option String)).set
        0 (some cmd)
      = [some cmd] ++ List.replicate (flags.length + deps.length + 4) none := rfl
  have hp1 : fill_list
        ([some cmd] ++ List.replicate (flags.length + deps.length + 4) none) 1 flags
      = ([some cmd] ++ flags.map some ++ List.replicate (deps.length + 4) none,
         1 + flags.length) := by
    have e : flags.length + deps.length + 4 = flags.length + (deps.length + 4) := by omega
    rw [e]
    simpa using fill_list_append flags [some cmd] (deps.length + 4)
  have ha2 : ([some cmd] ++ flags.map some ++ List.replicate (deps.length + 4) none).set
        (1 + flags.length) (some "-o")
      = (some cmd :: flags.map some)
          ++ some "-o" :: List.replicate (deps.length + 3) none := by
    have er : List.replicate (deps.length + 4) (none : Option String)
        = none :: List.replicate (deps.length + 3) none := rfl
    have eassoc : [some cmd] ++ flags.map some
          ++ (none :: List.replicate (deps.length + 3) none)
        = (some cmd :: flags.map some)
            ++ none :: List.replicate (deps.length + 3) none := by
      simp
    have eidx : 1 + flags.length = (some cmd :: flags.map some).length := by
      simp only [List.length_cons, List.length_map]
      omega
    rw [er, eassoc, eidx, set_at_length]
  have ha3 : ((some cmd :: flags.map some)
        ++ some "-o" :: List.replicate (deps.length + 3) none).set
          (1 + flags.length + 1) (some output)
      = (some cmd :: flags.map some)
          ++ some "-o" :: some output :: List.replicate (deps.length + 2) none := by
    have er : List.replicate (deps.length + 3) (none : Option String)
        = none :: List.replicate (deps.length + 2) none := rfl
    have eassoc : (some cmd :: flags.map some)
          ++ some "-o" :: none :: List.replicate (deps.length + 2) none
        = ((some cmd :: flags.map some) ++ [some "-o"])
            ++ none :: List.replicate (deps.length + 2) none := by
      simp
    have eidx : 1 + flags.length + 1
        = ((some cmd :: flags.map some) ++ [some "-o"]).length := by
      simp only [List.length_append, List.length_cons, List.length_map, List.length_nil]
      omega
    rw [er, eassoc, eidx, set_at_length]
    simp
  have ha4 : ((some cmd :: flags.map some)
        ++ some "-o" :: some output :: List.replicate (deps.length + 2) none).set
          (1 + flags.length + 2) (some targetName)
      = (some cmd :: flags.map some)
          ++ some "-o" :: some output :: some targetName
            :: List.replicate (deps.length + 1) none := by
    have er : List.replicate (deps.length + 2) (none : Option String)
        = none :: List.replicate (deps.length + 1) none := rfl
    have eassoc : (some cmd :: flags.map some)
          ++ some "-o" :: some output :: none :: List.replicate (deps.length + 1) none
        = ((some cmd :: flags.map some) ++ [some "-o", some output])
            ++ none :: List.replicate (deps.length + 1) none := by
      simp
    have eidx : 1 + flags.length + 2
        = ((some cmd :: flags.map some) ++ [some "-o", some output]).length := by
      simp only [List.length_append, List.length_cons, List.length_map, List.length_nil]
      omega
    rw [er, eassoc, eidx, set_at_length]
    simp
  have hp2 : fill_list ((some cmd :: flags.map some)
        ++ some "-o" :: some output :: some targetName
          :: List.replicate (deps.length + 1) none)
        (1 + flags.length + 3) deps
      = ((some cmd :: flags.map some)
          ++ some "-o" :: some output :: some targetName
            :: (deps.map some ++ List.replicate 1 none),
         1 + flags.length + 3 + deps.length) := by
    have eassoc : (some cmd :: flags.map some)
          ++ some "-o" :: some output :: some targetName
            :: List.replicate (deps.length + 1) none
        = ((some cmd :: flags.map some) ++ [some "-o", some output, some targetName])
            ++ List.replicate (deps.length + 1) none := by
      simp
    have eidx : 1 + flags.length + 3
        = ((some cmd :: flags.map some)
            ++ [some "-o", some output, some targetName]).length := by
      simp only [List.length_append, List.length_cons, List.length_map, List.length_nil]
      omega
    rw [eassoc, eidx, fill_list_append deps _ 1]
    simp
  have hfin : ((some cmd :: flags.map some)
        ++ some "-o" :: some output :: some targetName
          :: (deps.map some ++ List.replicate 1 none)).set
        (1 + flags.length + 3 + deps.length) none
      = (some cmd :: flags.map some)
          ++ some "-o" :: some output :: some targetName
            :: (deps.map some ++ [none]) := by
    have eassoc : (some cmd :: flags.map some)
          ++ some "-o" :: some output :: some targetName
            :: (deps.map some ++ (none :: ([] : List (Option String))))
        = ((some cmd :: flags.map some)
            ++ [some "-o", some output, some targetName] ++ deps.map some)
            ++ none :: ([] : List (Option String)) := by
      simp
    have eidx : 1 + flags.length + 3 + deps.length
        = ((some cmd :: flags.map some)
            ++ [some "-o", some output, some targetName] ++ deps.map some).length := by
      simp only [List.length_append, List.length_cons, List.length_map, List.length_nil]
      omega
    have erep : List.replicate 1 (none : Option String) = none :: [] := rfl
    rw [erep, eassoc, eidx, set_at_length]
  simp only [build_argv]
  rw [ha1, hp1]
  dsimp only
  rw [ha2, ha3, ha4, hp2]
  dsimp only
  rw [hfin]
  simp

theorem ADD_FLAG_rejected (allocOk : Bool) (l : List String) (name : String)
    (h : FLAG_CAPACITY ≤ name.length ∨ allocOk = false) :
    ADD_FLAG allocOk l name = l := by
  have hnf : flag_t_alloc allocOk name = none := by
    rw [flag_t_alloc]
    exact node_alloc_rejected _ _ _ (by decide) h
  rw [ADD_FLAG, hnf, LIST_PUSH_BACK_none]

theorem ADD_OBJECT_rejected (allocOk : Bool) (l : List String) (name : String)
    (h : OBJECT_CAPACITY ≤ name.length ∨ allocOk = false) :
    ADD_OBJECT allocOk l name = l := by
  have hno : object_t_alloc allocOk name = none := by
    rw [object_t_alloc]
    exact node_alloc_rejected _ _ _ (by decide) h
  rw [ADD_OBJECT, hno, LIST_PUSH_BACK_none]

theorem foldl_ADD_FLAG (names : List String) :
    ∀ acc : List String, (∀ n ∈ names, n.length < FLAG_CAPACITY) →
    List.foldl (fun l n => ADD_FLAG true l n) acc names = acc ++ names := by
  induction names with
  | nil =>
    intro acc _
    simp
  | cons x rest ih =>
    intro acc h
    have hx : x.length < FLAG_CAPACITY := h x (by simp)
    have hrest : ∀ n ∈ rest, n.length < FLAG_CAPACITY := fun n hn => h n (by simp [hn])
    rw [List.foldl_cons, ADD_FLAG_success acc x hx, ih (acc ++ [x]) hrest]
    simp

theorem make_rule_unchanged (rule : Option build_rule_t) (compiler : Option compiler_t)
    (flags : List String) (target : Option Nat) (deps : List String) (output : String)
    (h : rule = none ∨ compiler = none ∨ deps = []) :
    MAKE_RULE rule compiler flags target deps output = (rule, compiler) := by
  cases rule with
  | none => rfl
  | some r =>
    cases compiler with
    | none => rfl
    | some c =>
      rcases h with h | h | h
      · simp at h
      · simp at h
      · subst h
        simp [MAKE_RULE]

theorem rule_malformed_of (rule : Option build_rule_t)
    (h : rule = none ∨ ∃ r, rule = some r ∧
      (r.cc = none ∨ r.target = none ∨ r.dependencies = [])) :
    rule_malformed rule = true := by
  rcases h with h | ⟨r, hr, h⟩
  · subst h
    rfl
  · subst hr
    rcases h with h | h | h <;> simp [rule_malformed, h]

theorem rule_malformed_false_of (r : build_rule_t) (cc : compiler_t) (t : Nat)
    (hcc : r.cc = some cc) (ht : r.target = some t) (hdeps : r.dependencies ≠ []) :
    rule_malformed (some r) = false := by
  simp [rule_malformed, hcc, ht, hdeps]

theorem BUILD_malformed (store : Nat → String) (rule : Option build_rule_t)
    (allocOk : Bool) (outcome : SpawnOutcome) (h : rule_malformed rule = true) :
    BUILD store rule allocOk outcome = { ret := -1, spawned := false } := by
  simp [BUILD, h]

theorem takeWhile_append_of_not_mem (src rest : List Char) (h : NUL ∉ src) :
    (src ++ NUL :: rest).takeWhile (fun c => c ≠ NUL) = src := by
  induction src with
  | nil => simp
  | cons x xs ih =>
    have hx : x ≠ NUL := by
      intro e
      exact h (by simp [e])
    have hxs : NUL ∉ xs := fun hm => h (by simp [hm])
    simp [List.takeWhile_cons, hx]
    simpa using ih hxs

/-- The compiler descriptor of the end-to-end scenario of the spec. -/
def demo_cc : compiler_t := { cmd := "gcc", flags := ["-Wall", "-Wextra"] }

/-- A complete rule: target at address 0, two dependencies, output "out". -/
def demo_rule : build_rule_t :=
  { target := some 0, dependencies := ["foo.c", "bar.c"], cc := some demo_cc,
    output := "out" }

/-- An object store with the caller's target object "main.c" at address 0. -/
def demo_store : Nat → String := fun a => if a = 0 then "main.c" else ""

/-- The same store after the caller mutates the target object at address 0. -/
def demo_store2 : Nat → String := fun a => if a = 0 then "hello.c" else demo_store a

/-- A name of exactly the node capacity: one byte too long to store. -/
def LONG_NAME : String := String.mk (List.replicate 120 'a')

/-- The pair returned by a successful assembly against a fresh rule: the C
call MAKE_RULE(rule, cc, flags, &target, dependencies, "out") with the
caller's target object at address 0. -/
def asm_rule : build_rule_t :=
  ((MAKE_RULE (some INIT_RULE) (some { cmd := "gcc", flags := [] })
      ["-Wall"] (some 0) ["foo.c"] "out").1).getD INIT_RULE



/-- C1: for a complete rule (compiler, target and at least one dependency
present) with flags F1..Fn and dependencies D1..Dm, __build's serialization
produces exactly [CC, F1, ..., Fn, "-o", O, T, D1, ..., Dm] followed by the
terminating NULL marker, in a vector of exactly n + m + 5 slots. -/
theorem c1_argv_shape (store : Nat → String) (r : build_rule_t)
    (cc : compiler_t) (t : Nat) (hcc : r.cc = some cc) (ht : r.target = some t)
    (_hdeps : r.dependencies ≠ []) :
    rule_argv store r
      = some cc.cmd :: (cc.flags.map some
          ++ some "-o" :: some r.output :: some (store t)
            :: (r.dependencies.map some ++ [none]))
    ∧ (rule_argv store r).length
        = cc.flags.length + r.dependencies.length + 5 := by
  have hr : rule_argv store r
      = build_argv cc.cmd cc.flags r.output (store t) r.dependencies := by
    simp [rule_argv, hcc, ht]
  refine ⟨by rw [hr, build_argv_shape], ?_⟩
  rw [hr, build_argv_shape]
  simp only [List.length_cons, List.length_append, List.length_map, List.length_nil]
  omega

/-- Witness for C1: the end-to-end scenario of the spec. -/
theorem c1_argv_shape_witness :
    rule_argv demo_store demo_rule
      = [some "gcc", some "-Wall", some "-Wextra", some "-o", some "out",
         some "main.c", some "foo.c", some "bar.c", none]
    ∧ (rule_argv demo_store demo_rule).length = 9 := by
  have h := c1_argv_shape demo_store demo_rule demo_cc 0 rfl rfl (by decide)
  exact ⟨h.1, h.2⟩

/-- C2: for a complete rule whose argv allocation succeeds, BUILD returns 0
exactly when the child process exited normally with code 0; every other
termination (non-zero exit, termination by signal, fork failure) returns the
non-zero failure value -1. -/
theorem c2_success_iff_exit_zero (store : Nat → String) (r : build_rule_t)
    (cc : compiler_t) (t : Nat) (hcc : r.cc = some cc) (ht : r.target = some t)
    (hdeps : r.dependencies ≠ []) (outcome : SpawnOutcome) :
    ((BUILD store (some r) true outcome).ret = 0
      ↔ outcome = SpawnOutcome.exited 0)
    ∧ ((BUILD store (some r) true outcome).ret = 0
      ∨ (BUILD store (some r) true outcome).ret = -1) := by
  have hm : rule_malformed (some r) = false :=
    rule_malformed_false_of r cc t hcc ht hdeps
  unfold BUILD build_child
  rw [hm]
  cases outcome with
  | forkFail => simp
  | exited code =>
    by_cases hc : code = 0
    · subst hc
      simp
    · simp [hc]
  | signaled s => simp

/-- Witness for C2: a child exiting 0 yields build success. -/
theorem c2_success_iff_exit_zero_witness :
    (BUILD demo_store (some demo_rule) true (SpawnOutcome.exited 0)).ret = 0 :=
  (c2_success_iff_exit_zero demo_store demo_rule demo_cc 0 rfl rfl (by decide)
    (SpawnOutcome.exited 0)).1.mpr rfl

/-- C3: an absent rule, or a rule lacking its compiler, lacking its target,
or with an empty dependency list, makes BUILD fail directly with -1 and no
child process is created. -/
theorem c3_malformed_fails_without_spawn (store : Nat → String)
    (rule : Option build_rule_t) (allocOk : Bool) (outcome : SpawnOutcome)
    (h : rule = none ∨ ∃ r, rule = some r ∧
      (r.cc = none ∨ r.target = none ∨ r.dependencies = [])) :
    BUILD store rule allocOk outcome = { ret := -1, spawned := false } :=
  BUILD_malformed store rule allocOk outcome (rule_malformed_of rule h)

/-- Witness for C3: a freshly initialised rule fails without a spawn. -/
theorem c3_malformed_fails_without_spawn_witness :
    BUILD demo_store (some INIT_RULE) true (SpawnOutcome.exited 0)
      = { ret := -1, spawned := false } :=
  c3_malformed_fails_without_spawn demo_store (some INIT_RULE) true
    (SpawnOutcome.exited 0) (Or.inr ⟨INIT_RULE, rfl, Or.inl rfl⟩)

/-- C4: an append whose name length is at least the capacity (120), or whose
node allocation fails, leaves the list exactly as it was: same length, same
contents, same order, no partial node attached. -/
theorem c4_rejected_append_unchanged (allocOk : Bool) (l : List String)
    (name : String) (h : FLAG_CAPACITY ≤ name.length ∨ allocOk = false) :
    ADD_FLAG allocOk l name = l ∧ ADD_OBJECT allocOk l name = l :=
  ⟨ADD_FLAG_rejected allocOk l name h, ADD_OBJECT_rejected allocOk l name h⟩

/-- Witness for C4: a 120-character name is rejected, list untouched. -/
theorem c4_rejected_append_unchanged_witness :
    ADD_FLAG true ["-Wall"] LONG_NAME = ["-Wall"]
    ∧ ADD_OBJECT true ["-Wall"] LONG_NAME = ["-Wall"] :=
  c4_rejected_append_unchanged true ["-Wall"] LONG_NAME (Or.inl (by decide))

/-- C5: N successful appends of n_1 ... n_N onto the empty list yield exactly
[n_1, ..., n_N] in that order; each single successful append adds exactly one
new tail node and leaves every existing node unmodified. -/
theorem c5_append_order_preserved (names : List String)
    (h : ∀ n ∈ names, n.length < FLAG_CAPACITY) :
    List.foldl (fun l n => ADD_FLAG true l n) [] names = names
    ∧ List.foldl (fun l n => ADD_OBJECT true l n) [] names = names
    ∧ ∀ (l : List String) (n : String), n.length < FLAG_CAPACITY →
        ADD_FLAG true l n = l ++ [n] ∧ ADD_OBJECT true l n = l ++ [n] := by
  refine ⟨by simpa using foldl_ADD_FLAG names [] h, ?_, ?_⟩
  · rw [ADD_OBJECT_eq_ADD_FLAG]
    simpa using foldl_ADD_FLAG names [] h
  · intro l n hn
    exact ⟨ADD_FLAG_success l n hn,
      by rw [ADD_OBJECT_eq_ADD_FLAG]; exact ADD_FLAG_success l n hn⟩

/-- Witness for C5: two appends in order. -/
theorem c5_append_order_preserved_witness :
    List.foldl (fun l n => ADD_FLAG true l n) [] ["-Wall", "-Wextra"]
      = ["-Wall", "-Wextra"] :=
  (c5_append_order_preserved ["-Wall", "-Wextra"] (by decide)).1

/-- C6 as stated is refuted: a rejected ADD_FLAG call returns exactly the
same (void) value as a successful one, so the immediate caller receives no
explicit failure indicator; the failure is visible only in the unchanged
list. -/
theorem c6_counterexample :
    (ADD_FLAG_call true [] LONG_NAME).2 = (ADD_FLAG_call true [] "-Wall").2
    ∧ (ADD_FLAG_call true [] LONG_NAME).1 = []
    ∧ (ADD_FLAG_call true [] "-Wall").1 = ["-Wall"] := by
  refine ⟨rfl, by decide, by decide⟩

/-- C6 amended: ADD_FLAG, ADD_OBJECT and MAKE_RULE return void and signal no
failure indicator; their failures are observable only as the unchanged
list / rule state; the execution engine alone reports failure through an
explicit return value (-1) distinct from success (0). -/
theorem c6_errors_surface_in_state_not_return (allocOk : Bool)
    (l : List String) (name : String)
    (h : FLAG_CAPACITY ≤ name.length ∨ allocOk = false) :
    ADD_FLAG_call allocOk l name = (l, ())
    ∧ ADD_OBJECT_call allocOk l name = (l, ())
    ∧ (∀ (rule : Option build_rule_t) (compiler : Option compiler_t)
        (flags : List String) (target : Option Nat) (deps : List String)
        (output : String), (rule = none ∨ compiler = none ∨ deps = []) →
        MAKE_RULE rule compiler flags target deps output = (rule, compiler))
    ∧ (∀ (store : Nat → String) (rule : Option build_rule_t)
        (allocOk2 : Bool) (outcome : SpawnOutcome),
        rule_malformed rule = true →
        (BUILD store rule allocOk2 outcome).ret = -1 ∧ ((-1 : Int) ≠ 0)) := by
  refine ⟨?_, ?_, ?_, ?_⟩
  · rw [ADD_FLAG_call, ADD_FLAG_rejected allocOk l name h]
  · rw [ADD_OBJECT_call, ADD_OBJECT_rejected allocOk l name h]
  · intro rule compiler flags target deps output hpre
    exact make_rule_unchanged rule compiler flags target deps output hpre
  · intro store rule allocOk2 outcome hmal
    rw [BUILD_malformed store rule allocOk2 outcome hmal]
    exact ⟨rfl, by decide⟩

/-- Witness for C6 (amended): a too-long flag append returns void and leaves
the empty list empty. -/
theorem c6_errors_surface_in_state_not_return_witness :
    ADD_FLAG_call true [] LONG_NAME = ([], ()) :=
  (c6_errors_surface_in_state_not_return true [] LONG_NAME
    (Or.inl (by decide))).1

/-- C7: MAKE_RULE with an absent rule, an absent compiler, or an empty
dependency list is a no-op: every field of the rule and the compiler
descriptor passed in are exactly as they were before the call. -/
theorem c7_make_rule_noop (rule : Option build_rule_t)
    (compiler : Option compiler_t) (flags : List String) (target : Option Nat)
    (deps : List String) (output : String)
    (h : rule = none ∨ compiler = none ∨ deps = []) :
    MAKE_RULE rule compiler flags target deps output = (rule, compiler) :=
  make_rule_unchanged rule compiler flags target deps output h

/-- Witness for C7: an absent compiler leaves rule and compiler untouched. -/
theorem c7_make_rule_noop_witness :
    MAKE_RULE (some INIT_RULE) none ["-Wall"] (some 0) ["foo.c"] "out"
      = (some INIT_RULE, none) :=
  c7_make_rule_noop (some INIT_RULE) none ["-Wall"] (some 0) ["foo.c"] "out"
    (Or.inr (Or.inl rfl))

/-- C8: the code contradicts the claim's safety requirement: cleanup of a
freshly initialised rule, whose compiler pointer is NULL, reaches the
unguarded read of rule->cc->flags (line 300) before the NULL check at line
307 — a NULL-pointer dereference, modelled as none. -/
theorem c8_cleanup_dereferences_null_cc : cleanup (some INIT_RULE) = none := rfl

/-- C9 as stated is refuted: MAKE_RULE stores the caller's target pointer
(line 282) rather than copying the object, so mutating the caller's target
object afterwards changes the name read through the assembled rule. -/
theorem c9_counterexample :
    asm_rule.target = some 0
    ∧ target_name demo_store asm_rule = some "main.c"
    ∧ target_name demo_store2 asm_rule = some "hello.c"
    ∧ (some "hello.c" : Option String) ≠ some "main.c" := by
  refine ⟨rfl, rfl, rfl, by decide⟩

/-- C9 amended: on successful assembly the rule's target is the caller's
object pointer itself (held by reference, not copied), so the rule's target
name always reads through the caller's object in the store. -/
theorem c9_target_held_by_reference (r : build_rule_t) (c : compiler_t)
    (flags : List String) (tgt : Option Nat) (deps : List String)
    (output : String) (hdeps : deps ≠ []) :
    ∃ r2, (MAKE_RULE (some r) (some c) flags tgt deps output).1 = some r2
      ∧ r2.target = tgt
      ∧ ∀ store : Nat → String, target_name store r2 = tgt.map store := by
  have hmk : (MAKE_RULE (some r) (some c) flags tgt deps output).1
      = some { target := tgt, dependencies := deps,
               cc := some { c with flags := flags },
               output := set_str_field output } := by
    simp [MAKE_RULE, hdeps]
  exact ⟨_, hmk, rfl, fun store => rfl⟩

/-- Witness for C9 (amended): assembling against a fresh rule stores the
target pointer 0. -/
theorem c9_target_held_by_reference_witness :
    ∃ r2, (MAKE_RULE (some INIT_RULE) (some INIT_CC)
        ["-Wall"] (some 0) ["foo.c"] "out").1 = some r2
      ∧ r2.target = some 0
      ∧ ∀ store : Nat → String,
          target_name store r2 = (some 0 : Option Nat).map store :=
  c9_target_held_by_reference INIT_RULE INIT_CC ["-Wall"] (some 0) ["foo.c"]
    "out" (by decide)

/-- C10 as stated is refuted: an input of exactly the capacity (120
characters) is copied by strncpy as 120 bytes with NO terminator written —
not truncated at capacity - 1 bytes with a terminator — so the stored field
is not a readable C string. -/
theorem c10_counterexample :
    read_c_str (SET_CC_buf (List.replicate 120 'a')) = none
    ∧ SET_CC_buf (List.replicate 120 'a') ≠ List.replicate 119 'a' ++ [NUL] := by
  exact ⟨by decide, by decide⟩

/-- C10 amended: SET_CC copies bounded by the capacity: an input shorter than
the capacity is stored exactly and NUL-terminated, while an input of length
at or beyond the capacity is stored as exactly its first 120 bytes with no
terminator written (the field no longer reads as a C string). -/
theorem c10_set_cc_bounded_copy (src : List Char) (hn : NUL ∉ src) :
    (src.length < CC_CAPACITY → read_c_str (SET_CC_buf src) = some src)
    ∧ (CC_CAPACITY ≤ src.length →
        SET_CC_buf src = src.take CC_CAPACITY
        ∧ read_c_str (SET_CC_buf src) = none) := by
  constructor
  · intro hlt
    have hbuf : SET_CC_buf src
        = src ++ List.replicate (CC_CAPACITY - src.length) NUL := by
      simp [SET_CC_buf, strncpy_buf, hlt]
    have hpos : CC_CAPACITY - src.length
        = (CC_CAPACITY - src.length - 1) + 1 := by
      have hc : CC_CAPACITY = 120 := rfl
      omega
    rw [hbuf, hpos, List.replicate_succ]
    have hmem : NUL ∈ src ++ NUL :: List.replicate (CC_CAPACITY - src.length - 1) NUL := by
      simp
    simp only [read_c_str, hmem, if_true]
    rw [takeWhile_append_of_not_mem src _ hn]
  · intro hge
    have hnlt : ¬ src.length < CC_CAPACITY := by omega
    have hbuf : SET_CC_buf src = src.take CC_CAPACITY := by
      simp [SET_CC_buf, strncpy_buf, hnlt]
    refine ⟨hbuf, ?_⟩
    have hnm : NUL ∉ src.take CC_CAPACITY :=
      fun hm => hn (List.take_subset _ _ hm)
    rw [hbuf]
    simp [read_c_str, hnm]

/-- Witness for C10 (amended): the short command "gcc" is stored exactly. -/
theorem c10_set_cc_bounded_copy_witness :
    read_c_str (SET_CC_buf ['g', 'c', 'c']) = some ['g', 'c', 'c'] :=
  (c10_set_cc_bounded_copy ['g', 'c', 'c'] (by decide)).1 (by decide)

end Nobuild
